import Mathlib

/-!
Shallow embedding of `src/vector.py` (class `Vector`, lines 7-116).

Modelling conventions, used throughout and noted again at each definition
they affect:

* Coordinates are `Decimal` values in the source.  In the main embedding a
  coordinate is a rational number `ℚ` holding the exact numeric value; the
  30-significant-digit context rounding that `Decimal` arithmetic applies
  is idealized away here (it changes results only by relative error around
  `10 ^ (-29)` and none of the properties below is boundary-sensitive at
  that scale).  A second, rounding-faithful layer (`Dec`) models the
  context rounding exactly where it is the point at issue (ScaleBy(1)).
* `math.sqrt` and `math.acos` are floating-point in the source.  The
  embedding idealizes them as the exact real square root / arccosine and
  states every comparison that involves them in an equivalent squared /
  rationalized form, so that each definition stays executable:
  - `magnitude < t` (with `t > 0`) becomes `magnitudeSq < t ^ 2`;
  - `magnitude == 0` becomes `magnitudeSq = 0`;
  - the computed angle `acos(round(d, 2))` (line 62) equals `0` exactly
    when `round(d, 2) = 1`, equals `pi` exactly when `round(d, 2) = -1`,
    and lies strictly between them otherwise, so the embedding returns the
    classification of the angle against `0` and `pi`, which is all the
    library ever inspects (line 75).  With `d` the cosine of the angle and
    `S` the product of the squared magnitudes, `round(d, 2) = 1` iff
    `d >= 0.995` (round-half-even, ties included) iff
    `0 < dot ∧ 990025 * S ≤ 1000000 * dot ^ 2`, and symmetrically for `-1`.
* Python exceptions become `Except String`; the carried string is the
  exception message (for `TypeError` / `ValueError` raised inside `cross`
  by the interpreter itself, an abbreviated message).
* The float literal `1e-10` (default tolerance, lines 77 and 115) is
  modelled as the exact rational `1 / 10 ^ 10`; the nearest binary double
  differs from it by a relative `10 ^ (-17)`, immaterial to every claim.
-/

deriving instance DecidableEq for Except

namespace VecLib

/-- The `Vector` value type (lines 13-18): a tuple of decimal coordinates
plus a separately stored `dimension` field set to the length at
construction. -/
structure Vector where
  coordinates : List ℚ
  dimension : ℕ
deriving DecidableEq

/-- Error message of line 21. -/
def nonemptyMsg : String := "The coordinates must be nonempty"

/-- Error message of line 9 / line 52. -/
def cannotNormalizeMsg : String := "Cannot normalize the zero vector"

/-- Error message of line 70. -/
def cannotAngleMsg : String := "Cannot compute an angle with zero vector"

/-- Error message of line 10 / line 89. -/
def noUniqueParallelMsg : String := "No unique parallel component"

/-- Interpreter message for unpacking a tuple of the wrong size
(lines 101-102). -/
def unpackErrMsg : String := "ValueError: not enough values to unpack"

/-- Interpreter message for multiplying the string pad by a Decimal
(line 105, z1 being the string pad of line 97). -/
def strMulErrMsg : String := "TypeError: cannot multiply str by Decimal"

/-- `__init__` (lines 13-24): an empty coordinate collection raises
`ValueError('The coordinates must be nonempty')`; otherwise the tuple and
its length are stored.  (The `TypeError` branch for a non-iterable
argument is outside a typed embedding whose argument is already a list.) -/
def mkVector (l : List ℚ) : Except String Vector :=
  if l.isEmpty then .error nonemptyMsg else .ok ⟨l, l.length⟩

/-- `__eq__` (lines 29-30): Python tuple equality of the coordinate
tuples - same length and numerically equal entries pairwise. -/
def coordsEq : List ℚ → List ℚ → Bool
  | [], [] => true
  | x :: xs, y :: ys => decide (x = y) && coordsEq xs ys
  | [], _ :: _ => false
  | _ :: _, [] => false

/-- `__eq__` on vectors (lines 29-30): compares only the coordinate
tuples. -/
def vecEq (a b : Vector) : Bool :=
  coordsEq a.coordinates b.coordinates

/-- `plus` (lines 32-34): pairwise sum over `zip` (which truncates to the
shorter operand), then the `Vector` constructor. -/
def plus (a b : Vector) : Except String Vector :=
  mkVector (List.zipWith (fun x y => x + y) a.coordinates b.coordinates)

/-- `minus` (lines 36-38): pairwise difference over `zip`, then the
`Vector` constructor. -/
def minus (a b : Vector) : Except String Vector :=
  mkVector (List.zipWith (fun x y => x - y) a.coordinates b.coordinates)

/-- `times_scalar` (lines 40-42): multiplies every coordinate by the
scalar on the left, then the `Vector` constructor. -/
def times_scalar (c : ℚ) (a : Vector) : Except String Vector :=
  mkVector (a.coordinates.map (fun x => c * x))

/-- The sum of squared coordinates (line 45, before `sqrt`): `magnitude`
is the square root of this; the embedding keeps the square (exact, and
executable) and states all magnitude comparisons in squared form. -/
def magnitudeSq (a : Vector) : ℚ :=
  (a.coordinates.map (fun x => x ^ 2)).sum

/-- `is_zero` (lines 115-116): `magnitude < 1e-10`, stated in squared form
`magnitudeSq < (10 ^ (-10)) ^ 2` (both sides nonnegative, so the
comparison is equivalent to the one on square roots). -/
def is_zero (a : Vector) : Bool :=
  decide (magnitudeSq a < 1 / 10 ^ 20)

/-- `dot` (lines 54-55): sum of pairwise products over `zip` (which
truncates to the shorter operand). -/
def dot (a b : Vector) : ℚ :=
  (List.zipWith (fun x y => x * y) a.coordinates b.coordinates).sum

/-- The error behaviour of `normalize` (lines 48-52): division by
`magnitude` raises `ZeroDivisionError` exactly when the magnitude is zero,
i.e. when the sum of squares is zero, and that is re-raised as
`Exception('Cannot normalize the zero vector')`.  The unit vector itself
has irrational coordinates; the operations below that consume it
(`angle_with`, `component_parallel_to`) are embedded through their
rationalized composites, so only the success/failure of `normalize` is
needed as a separate definition. -/
def normalizeCheck (a : Vector) : Except String Unit :=
  if magnitudeSq a = 0 then .error cannotNormalizeMsg else .ok ()

/-- Whether `round(d, 2) = 1` for `d` the dot product of the two
normalized operands (line 61-62), i.e. `d ≥ 0.995`: rationalized to
`0 < dot ∧ 990025 * (magSq a * magSq b) ≤ 1000000 * dot ^ 2` (square both
sides of `dot ≥ 0.995 * sqrt S`; `0.995` rounds half-even to `1.00`, so
the tie belongs to this case). -/
def roundedCosIsOne (a b : Vector) : Bool :=
  decide (0 < dot a b ∧
    990025 * (magnitudeSq a * magnitudeSq b) ≤ 1000000 * (dot a b) ^ 2)

/-- Whether `round(d, 2) = -1` for `d` as above, i.e. `d ≤ -0.995`. -/
def roundedCosIsNegOne (a b : Vector) : Bool :=
  decide (dot a b < 0 ∧
    990025 * (magnitudeSq a * magnitudeSq b) ≤ 1000000 * (dot a b) ^ 2)

/-- Classification of the computed angle `acos(round(d, 2))` (line 62)
against the two values the library compares it with (line 75):
`acos(round(d,2)) = 0` iff `round(d,2) = 1`, `= pi` iff `round(d,2) = -1`,
strictly in between otherwise. -/
inductive AngleCls where
  | zero
  | pi
  | other
deriving DecidableEq

/-- `angle_with` (lines 57-72): normalize both operands (raising when one
is the zero vector), compute the angle, and re-raise a normalize failure -
recognized by its message - as
`Exception('Cannot compute an angle with zero vector')`.  The success
value is the classification of the computed angle (see `AngleCls`). -/
def angle_with (a b : Vector) : Except String AngleCls :=
  match normalizeCheck a with
  | .error e => .error (if e = cannotNormalizeMsg then cannotAngleMsg else e)
  | .ok _ =>
    match normalizeCheck b with
    | .error e => .error (if e = cannotNormalizeMsg then cannotAngleMsg else e)
    | .ok _ =>
      .ok (if roundedCosIsOne a b then AngleCls.zero
           else if roundedCosIsNegOne a b then AngleCls.pi
           else AngleCls.other)

/-- `is_parallel_to` (lines 74-75): `self.is_zero() or v.is_zero() or
self.angle_with(v) in [0, pi]`, with Python short-circuit `or`; an
exception from `angle_with` would propagate (the `Except` is kept). -/
def is_parallel_to (a b : Vector) : Except String Bool :=
  if is_zero a then .ok true
  else if is_zero b then .ok true
  else (angle_with a b).map
    (fun r => decide (r = AngleCls.zero) || decide (r = AngleCls.pi))

/-- `is_orthogonal_to` (lines 77-78): `abs(self.dot(v)) < tolerance` with
the default tolerance `1e-10`. -/
def is_orthogonal_to (a b : Vector) : Bool :=
  decide (|dot a b| < 1 / 10 ^ 10)

/-- `component_parallel_to` (lines 83-91): `u = basis.normalize();
u.times_scalar(self.dot(u))`, re-raising the normalize failure as
`Exception('No unique parallel component')`.  With `u = basis / |basis|`
the returned coordinates are `(dot self basis / dot basis basis) * x` for
`x` over the coordinates of `basis` - a rational composite, embedded as
such (the intermediate irrational `u` never escapes in the source
either). -/
def component_parallel_to (a basis : Vector) : Except String Vector :=
  if magnitudeSq basis = 0 then .error noUniqueParallelMsg
  else mkVector (basis.coordinates.map
    (fun x => (dot a basis / magnitudeSq basis) * x))

/-- `component_orthogonal_to` (lines 80-81):
`self.minus(self.component_parallel_to(basis))`; a failure of the
parallel component propagates unchanged (with the parallel-component
message - the constant of line 11 is never used). -/
def component_orthogonal_to (a basis : Vector) : Except String Vector := do
  let p ← component_parallel_to a basis
  minus a p

/-- `cross` (lines 93-107), exactly as the source has it:
* if `self.dimension == 2`, a pad entry - the *string* `'0'` - is appended
  to `self_coordinates` (line 97); a padded copy of `v.coordinates` is
  also computed (line 99) but line 102 unpacks the *unpadded*
  `v.coordinates`, so it is dead;
* unpacking `x1, y1, z1 = self_coordinates` (line 101) raises `ValueError`
  unless that tuple has exactly 3 entries, and likewise
  `x2, y2, z2 = v.coordinates` (line 102) unless `v` is 3-dimensional;
* with a string `z1`, evaluating `z1 * y2` in the second list entry
  (line 105) raises `TypeError` (the first entry, line 104, involves only
  Decimals and is computed before the failure - unobservable here);
* otherwise the result is
  `[x1*y2 - y1*x2, y1*z2 - z1*y2, -(x1*z2) - (z1*x2)]` (lines 103-107). -/
def cross (a b : Vector) : Except String Vector :=
  if a.dimension = 2 then
    if a.coordinates.length = 2 then
      if b.coordinates.length = 3 then .error strMulErrMsg
      else .error unpackErrMsg
    else .error unpackErrMsg
  else
    match a.coordinates, b.coordinates with
    | [x1, y1, z1], [x2, y2, z2] =>
      mkVector [x1 * y2 - y1 * x2, y1 * z2 - z1 * y2, -(x1 * z2) - (z1 * x2)]
    | _, _ => .error unpackErrMsg

/-- Following the spec's words only (for comparison with `cross`): "Any
2-dimensional operand is treated as 3-dimensional with a zero third
coordinate.  Computes the standard 3-dimensional cross product", i.e.
`(y1*z2 - z1*y2, z1*x2 - x1*z2, x1*y2 - y1*x2)`; undefined off dimensions
2 and 3. -/
def crossSpec (a b : Vector) : Option (List ℚ) :=
  let pad := fun (l : List ℚ) => if l.length = 2 then l ++ [0] else l
  match pad a.coordinates, pad b.coordinates with
  | [x1, y1, z1], [x2, y2, z2] =>
    some [y1 * z2 - z1 * y2, z1 * x2 - x1 * z2, x1 * y2 - y1 * x2]
  | _, _ => none

/-- The data-model invariant of the spec: the stored `dimension` equals
the length of the coordinate tuple and is at least 1. -/
def WF (v : Vector) : Prop :=
  v.dimension = v.coordinates.length ∧ 1 ≤ v.dimension

instance (v : Vector) : Decidable (WF v) := by
  unfold WF; infer_instance

/-! ## The rounding-faithful decimal layer

`getcontext().prec = 30` (line 4) makes every `Decimal` *arithmetic*
operation round its exact result to 30 significant digits, half-even.
The `Decimal` constructor used by `__init__` (line 17) does *not* round:
a numeric string (or the exact binary expansion of a float) is stored
exactly, with however many digits it has.  This layer models a `Decimal`
as a signed integer significand times a power of ten and models the
context rounding of multiplication exactly; it is what settles the
`ScaleBy(1)` claim, for which the rounding is the point at issue. -/

/-- A `Decimal` value: `m * 10 ^ e`. -/
structure Dec where
  m : ℤ
  e : ℤ
deriving DecidableEq

/-- The context precision set on line 4. -/
def decPrec : ℕ := 30

/-- Round-half-even division of a natural by a positive divisor. -/
def roundHalfEvenNat (n d : ℕ) : ℕ :=
  let q := n / d
  let r := n % d
  if 2 * r < d then q
  else if d < 2 * r then q + 1
  else if q % 2 = 0 then q else q + 1

/-- Fuelled decimal-digit count (structural in the fuel, so that the
kernel can evaluate it on literals; `fuel ≥ n` makes it exact). -/
def digitsFuel : ℕ → ℕ → ℕ
  | 0, _ => 0
  | f + 1, n => if n = 0 then 0 else digitsFuel f (n / 10) + 1

/-- How many digits beyond `decPrec` the significand `n` has: `0` when
`n < 10 ^ 30`, and the digit count of `n / 10 ^ 30` otherwise (for
`n ≥ 10 ^ 30` the digit count of `n` is `30` plus that of
`n / 10 ^ 30`). -/
def excessDigits (n : ℕ) : ℕ :=
  let h := n / 10 ^ decPrec
  digitsFuel h h

/-- Context rounding of an exact decimal result to 30 significant digits,
half-even (the context default), as applied by every arithmetic operation
under `prec = 30`. -/
def ctxRound (d : Dec) : Dec :=
  let k := excessDigits d.m.natAbs
  if k = 0 then d
  else
    let q := roundHalfEvenNat d.m.natAbs (10 ^ k)
    ⟨if d.m < 0 then -(q : ℤ) else (q : ℤ), d.e + k⟩

/-- `Decimal` multiplication under the context: exact product, then
context rounding. -/
def mulDec (a b : Dec) : Dec :=
  ctxRound ⟨a.m * b.m, a.e + b.e⟩

/-- `Decimal.__eq__`: numeric equality of the exact values
`a.m * 10 ^ a.e = b.m * 10 ^ b.e`, stated over the common exponent
`min a.e b.e` so that it is an integer equation. -/
def decimalEq (a b : Dec) : Bool :=
  let e := min a.e b.e
  decide (a.m * 10 ^ (a.e - e).toNat = b.m * 10 ^ (b.e - e).toNat)

/-- Python tuple equality on decimal coordinate tuples (what `__eq__` of
`Vector` compares, lines 29-30). -/
def decCoordsEq : List Dec → List Dec → Bool
  | [], [] => true
  | x :: xs, y :: ys => decimalEq x y && decCoordsEq xs ys
  | [], _ :: _ => false
  | _ :: _, [] => false

/-- `times_scalar` (lines 40-42) on the decimal layer: `Decimal(c) * x`
coordinate-wise (each product context-rounded). -/
def times_scalar_dec (c : Dec) (coords : List Dec) : List Dec :=
  coords.map (fun x => mulDec c x)

/-- `Decimal(1)`, the scalar of `ScaleBy(1)`. -/
def oneDec : Dec := ⟨1, 0⟩

/-! ## Concrete inputs used by the claim theorems -/

/-- `Vector([1, 2, 3])`. -/
def v123 : Vector := ⟨[1, 2, 3], 3⟩

/-- `Vector([4, 5, 6])`. -/
def v456 : Vector := ⟨[4, 5, 6], 3⟩

/-- `Vector([1, 2])`, a 2-dimensional operand. -/
def v12 : Vector := ⟨[1, 2], 2⟩

/-- What the source's `cross` returns on `v123`, `v456`. -/
def crossOut : Vector := ⟨[-3, -3, -18], 3⟩

/-- `Vector([1e-11, 0])`: not the zero vector, but of magnitude below the
`1e-10` tolerance of `is_zero`. -/
def vTiny : Vector := ⟨[1 / 10 ^ 11, 0], 2⟩

/-- `Vector([0, 1])`, orthogonal to `vTiny`. -/
def w01 : Vector := ⟨[0, 1], 2⟩

/-- The coordinate tuple of
`Vector(['1.000000000000000000000000000001'])`: the constructor stores
the 31-significant-digit string exactly. -/
def vThirtyOne : List Dec := [⟨10 ^ 30 + 1, -30⟩]

/-- The coordinate tuple of `Vector(['1.5'])`. -/
def vFifteenTenths : List Dec := [⟨15, -1⟩]

/-- `Vector([0, 0])`, the 2-dimensional zero vector. -/
def vZero2 : Vector := ⟨[0, 0], 2⟩

/-- `Vector([3])`. -/
def vSingle3 : Vector := ⟨[3], 1⟩

/-! ## Helper lemmas -/

theorem mkVector_ok (l : List ℚ) (h : l ≠ []) :
    mkVector l = Except.ok ⟨l, l.length⟩ := by
  unfold mkVector
  rw [if_neg]
  simpa using h

theorem coordsEq_true_iff : ∀ l1 l2 : List ℚ, coordsEq l1 l2 = true ↔ l1 = l2
  | [], [] => by simp [coordsEq]
  | [], _ :: _ => by simp [coordsEq]
  | _ :: _, [] => by simp [coordsEq]
  | x :: xs, y :: ys => by
    simp [coordsEq, coordsEq_true_iff xs ys]

theorem sumSq_eq_zero_iff :
    ∀ l : List ℚ, (l.map (fun x => x ^ 2)).sum = 0 ↔ ∀ x ∈ l, x = 0
  | [] => by simp
  | x :: xs => by
    have hx : (0 : ℚ) ≤ x ^ 2 := sq_nonneg x
    have hxs : (0 : ℚ) ≤ (xs.map (fun x => x ^ 2)).sum :=
      List.sum_nonneg (by
        intro y hy
        obtain ⟨z, _, rfl⟩ := List.mem_map.mp hy
        exact sq_nonneg z)
    simp only [List.map_cons, List.sum_cons, List.mem_cons]
    rw [add_eq_zero_iff_of_nonneg hx hxs, sumSq_eq_zero_iff xs]
    constructor
    · rintro ⟨h1, h2⟩ y (rfl | hy)
      · exact pow_eq_zero_iff (by norm_num) |>.mp h1
      · exact h2 y hy
    · intro h
      refine ⟨by rw [h x (Or.inl rfl)]; ring, fun y hy => h y (Or.inr hy)⟩

theorem magSq_eq_zero_iff (v : Vector) :
    magnitudeSq v = 0 ↔ ∀ x ∈ v.coordinates, x = 0 :=
  sumSq_eq_zero_iff v.coordinates

theorem is_zero_false_magSq (v : Vector) (h : is_zero v = false) :
    magnitudeSq v ≠ 0 := by
  intro h0
  simp [is_zero, h0] at h

theorem zipWith_ne_nil (f : ℚ → ℚ → ℚ) (l1 l2 : List ℚ)
    (h1 : l1 ≠ []) (h2 : l2 ≠ []) : List.zipWith f l1 l2 ≠ [] := by
  cases l1 with
  | nil => exact absurd rfl h1
  | cons x xs =>
    cases l2 with
    | nil => exact absurd rfl h2
    | cons y ys => simp

theorem zipWith_take_min (f : ℚ → ℚ → ℚ) :
    ∀ l1 l2 : List ℚ,
      List.zipWith f l1 l2 =
        List.zipWith f (l1.take (min l1.length l2.length))
          (l2.take (min l1.length l2.length))
  | [], _ => by simp
  | _ :: _, [] => by simp
  | x :: xs, y :: ys => by
    simp only [List.zipWith_cons_cons, List.length_cons]
    rw [Nat.succ_min_succ, List.take_succ_cons, List.take_succ_cons,
      List.zipWith_cons_cons]
    exact congrArg _ (zipWith_take_min f xs ys)

/-! ## Claim theorems -/

/-- C1: the claim states that `cross` computes the standard
3-dimensional cross product `(y1*z2 - z1*y2, z1*x2 - x1*z2,
x1*y2 - y1*x2)` and treats a 2-dimensional operand as 3-dimensional with
a zero third coordinate.  The code does neither: on `v = [1,2,3]`,
`w = [4,5,6]` it returns `[-3,-3,-18]` where the standard cross product
is `[-3,6,-3]`, and a 2-dimensional operand makes it raise (`TypeError`
from multiplying the string pad when `self` is 2-dimensional,
`ValueError` from unpacking when `v` is, the padded copy of `v` being
dead code) where the spec-modelled `crossSpec` zero-pads and succeeds. -/
theorem C1_cross_divergence :
    cross v123 v456 = Except.ok crossOut ∧
    crossSpec v123 v456 = some [-3, 6, -3] ∧
    crossOut.coordinates ≠ [-3, 6, -3] ∧
    crossSpec v123 v12 = some [-6, 3, 0] ∧
    cross v123 v12 = Except.error unpackErrMsg ∧
    cross v12 v456 = Except.error strMulErrMsg := by
  refine ⟨?_, ?_, ?_, ?_, rfl, rfl⟩
  · norm_num [cross, v123, v456, crossOut, mkVector]
  · norm_num [crossSpec, v123, v456]
  · norm_num [crossOut]
  · norm_num [crossSpec, v123, v12]

/-- C2: the claim states that `v.cross(w)` is orthogonal to both `v` and
`w` for 3-dimensional operands.  Because `cross` does not compute the
cross product (see C1), this fails: at `v = [1,2,3]`, `w = [4,5,6]` the
returned vector has dot products `-63` and `-135` with the operands, so
`is_orthogonal_to` (tolerance `1e-10`) is false for both. -/
theorem C2_cross_not_orthogonal :
    cross v123 v456 = Except.ok crossOut ∧
    dot crossOut v123 = -63 ∧
    dot crossOut v456 = -135 ∧
    is_orthogonal_to crossOut v123 = false ∧
    is_orthogonal_to crossOut v456 = false := by
  refine ⟨?_, ?_, ?_, ?_, ?_⟩
  · norm_num [cross, v123, v456, crossOut, mkVector]
  · norm_num [dot, crossOut, v123]
  · norm_num [dot, crossOut, v456]
  · norm_num [is_orthogonal_to, dot, crossOut, v123]
  · norm_num [is_orthogonal_to, dot, crossOut, v456]

/-- C5: constructing from a non-empty coordinate list succeeds and stores
`dimension = length`, and constructing from the empty list fails with the
`ValueError` whose message is the source's
`'The coordinates must be nonempty'` (the claim's quoted message omits
the leading `The`, as the spec normalizes message texts). -/
theorem C5_construct (l : List ℚ) :
    (l ≠ [] → ∃ v, mkVector l = Except.ok v ∧ v.dimension = l.length) ∧
    mkVector ([] : List ℚ) = Except.error nonemptyMsg := by
  refine ⟨fun h => ⟨⟨l, l.length⟩, mkVector_ok l h, rfl⟩, rfl⟩

/-- Witness for C5 at the concrete list `[5]`. -/
theorem C5_witness :
    (∃ v, mkVector [(5 : ℚ)] = Except.ok v ∧ v.dimension = 1) ∧
    mkVector ([] : List ℚ) = Except.error nonemptyMsg :=
  ⟨(C5_construct [(5 : ℚ)]).1 (by simp), (C5_construct []).2⟩

/-- C9: `__eq__` compares the coordinate tuples, and Python tuple
equality on tuples of different lengths is `False`; so two well-formed
vectors of different dimensions are never equal (and the comparison is a
total function - no exception is modelled because none can occur). -/
theorem C9_eq_diff_dims (a b : Vector) (ha : WF a) (hb : WF b)
    (h : a.dimension ≠ b.dimension) : vecEq a b = false := by
  rcases hbe : vecEq a b with _ | _
  · rfl
  · exfalso
    have hc : a.coordinates = b.coordinates :=
      (coordsEq_true_iff a.coordinates b.coordinates).mp hbe
    exact h (by rw [ha.1, hb.1, hc])

/-- Witness for C9 at `Vector([1])` and `Vector([1, 2])`. -/
theorem C9_witness : vecEq ⟨[1], 1⟩ ⟨[1, 2], 2⟩ = false :=
  C9_eq_diff_dims ⟨[1], 1⟩ ⟨[1, 2], 2⟩ (by constructor <;> simp)
    (by constructor <;> simp) (by simp)

/-- C6: `angle_with` fails - with the `Exception` whose message is the
source's `'Cannot compute an angle with zero vector'` (the claim quotes
the spec's normalized wording of the same message) - exactly when one of
the operands is the zero vector, the failure being the re-raise of
`normalize`'s zero-vector failure (recognized by its message) with the
more specific message; any error it raises carries that message.
Magnitude-zero is stated as all-coordinates-zero (equivalent over the
exact values). -/
theorem C6_angle_zero_error (a b : Vector) :
    (angle_with a b = Except.error cannotAngleMsg ↔
      ((∀ x ∈ a.coordinates, x = 0) ∨ (∀ x ∈ b.coordinates, x = 0))) ∧
    (∀ e, angle_with a b = Except.error e → e = cannotAngleMsg) := by
  rw [← magSq_eq_zero_iff, ← magSq_eq_zero_iff]
  by_cases hA : magnitudeSq a = 0
  · constructor
    · simp [angle_with, normalizeCheck, hA]
    · intro e he
      simp [angle_with, normalizeCheck, hA] at he
      exact he.symm
  · by_cases hB : magnitudeSq b = 0
    · constructor
      · simp [angle_with, normalizeCheck, hA, hB]
      · intro e he
        simp [angle_with, normalizeCheck, hA, hB] at he
        exact he.symm
    · constructor
      · simp [angle_with, normalizeCheck, hA, hB]
      · intro e he
        simp [angle_with, normalizeCheck, hA, hB] at he

/-- Witness for C6: the error at a zero first operand, and success (no
error possible) on two nonzero operands. -/
theorem C6_witness :
    angle_with vZero2 w01 = Except.error cannotAngleMsg ∧
    ¬ angle_with v123 v456 = Except.error cannotAngleMsg :=
  ⟨(C6_angle_zero_error vZero2 w01).1.mpr (Or.inl (by simp [vZero2])),
   fun h => by
    rcases (C6_angle_zero_error v123 v456).1.mp h with h1 | h1
    · exact absurd (h1 1 (by simp [v123])) (by norm_num)
    · exact absurd (h1 4 (by simp [v456])) (by norm_num)⟩

/-- C7: with a zero basis, `component_parallel_to` fails with the
`Exception` whose message is the source's
`'No unique parallel component'` (the claim quotes the spec's normalized
casing), and `component_orthogonal_to` propagates that same failure with
that same (parallel-component) message - the orthogonal-specific constant
of line 11 is never used; with a nonzero basis both succeed. -/
theorem C7_component_zero_basis (a basis : Vector) (ha : a.coordinates ≠ []) :
    ((∀ x ∈ basis.coordinates, x = 0) →
      component_parallel_to a basis = Except.error noUniqueParallelMsg ∧
      component_orthogonal_to a basis = Except.error noUniqueParallelMsg) ∧
    (¬ (∀ x ∈ basis.coordinates, x = 0) →
      (∃ r, component_parallel_to a basis = Except.ok r) ∧
      (∃ r, component_orthogonal_to a basis = Except.ok r)) := by
  constructor
  · intro h
    have hz : magnitudeSq basis = 0 := (magSq_eq_zero_iff basis).mpr h
    have h1 : component_parallel_to a basis = Except.error noUniqueParallelMsg := by
      simp [component_parallel_to, hz]
    exact ⟨h1, by simp [component_orthogonal_to, h1, bind, Except.bind]⟩
  · intro h
    have hz : magnitudeSq basis ≠ 0 := fun h0 => h ((magSq_eq_zero_iff basis).mp h0)
    have hb : basis.coordinates ≠ [] := fun hnil => h (by simp [hnil])
    have hmap : basis.coordinates.map
        (fun x => (dot a basis / magnitudeSq basis) * x) ≠ [] := by
      simpa using hb
    have hcpt : component_parallel_to a basis =
        Except.ok ⟨basis.coordinates.map
            (fun x => (dot a basis / magnitudeSq basis) * x),
          (basis.coordinates.map
            (fun x => (dot a basis / magnitudeSq basis) * x)).length⟩ := by
      rw [component_parallel_to, if_neg hz]
      exact mkVector_ok _ hmap
    have hzip : List.zipWith (fun x y => x - y) a.coordinates
        (basis.coordinates.map
          (fun x => (dot a basis / magnitudeSq basis) * x)) ≠ [] :=
      zipWith_ne_nil _ _ _ ha hmap
    refine ⟨⟨_, hcpt⟩,
      ⟨⟨List.zipWith (fun x y => x - y) a.coordinates
          (basis.coordinates.map
            (fun x => (dot a basis / magnitudeSq basis) * x)),
        (List.zipWith (fun x y => x - y) a.coordinates
          (basis.coordinates.map
            (fun x => (dot a basis / magnitudeSq basis) * x))).length⟩, ?_⟩⟩
    simp only [component_orthogonal_to, hcpt, bind, Except.bind, minus]
    exact mkVector_ok _ hzip

/-- Witness for C7: zero basis `[0, 0]` against `Vector([3])`, and the
nonzero basis `[4, 5, 6]`. -/
theorem C7_witness :
    (component_parallel_to vSingle3 vZero2 = Except.error noUniqueParallelMsg ∧
     component_orthogonal_to vSingle3 vZero2 = Except.error noUniqueParallelMsg) ∧
    ((∃ r, component_parallel_to vSingle3 v456 = Except.ok r) ∧
     (∃ r, component_orthogonal_to vSingle3 v456 = Except.ok r)) :=
  ⟨(C7_component_zero_basis vSingle3 vZero2 (by simp [vSingle3])).1 (by simp [vZero2]),
   (C7_component_zero_basis vSingle3 v456 (by simp [vSingle3])).2 (by norm_num [v456])⟩

/-- C3 as stated is false: `is_parallel_to` short-circuits on the
tolerance test `is_zero` (magnitude below `1e-10`), not on being the zero
vector.  At `v = [1e-11, 0]` (nonzero, magnitude `1e-11`) and
`w = [0, 1]`, the code returns `True` although neither operand is the
zero vector and the computed angle is `pi/2`, neither `0` nor `pi`. -/
theorem C3_counterexample :
    ¬ (is_parallel_to vTiny w01 = Except.ok true ↔
        ((∀ x ∈ vTiny.coordinates, x = 0) ∨ (∀ x ∈ w01.coordinates, x = 0) ∨
         angle_with vTiny w01 = Except.ok AngleCls.zero ∨
         angle_with vTiny w01 = Except.ok AngleCls.pi)) := by
  have hz : is_zero vTiny = true := by
    norm_num [is_zero, magnitudeSq, vTiny]
  have hL : is_parallel_to vTiny w01 = Except.ok true := by
    simp [is_parallel_to, hz]
  have h1 : magnitudeSq vTiny ≠ 0 := by norm_num [magnitudeSq, vTiny]
  have h2 : magnitudeSq w01 ≠ 0 := by norm_num [magnitudeSq, w01]
  have hco : roundedCosIsOne vTiny w01 = false := by
    norm_num [roundedCosIsOne, dot, vTiny, w01]
  have hcp : roundedCosIsNegOne vTiny w01 = false := by
    norm_num [roundedCosIsNegOne, dot, vTiny, w01]
  have hO : angle_with vTiny w01 = Except.ok AngleCls.other := by
    simp [angle_with, normalizeCheck, h1, h2, hco, hcp]
  intro hiff
  rcases hiff.mp hL with h | h | h | h
  · exact absurd (h (1 / 10 ^ 11) (by simp [vTiny])) (by norm_num)
  · exact absurd (h 1 (by simp [w01])) (by norm_num)
  · rw [hO] at h
    exact absurd h (by simp)
  · rw [hO] at h
    exact absurd h (by simp)

/-- C3 amended: `is_parallel_to` never raises (it always returns a
boolean: `is_zero` false for both operands puts the magnitudes above
zero, so `angle_with` cannot fail), and it is true iff one of the
operands passes the `is_zero` tolerance test (magnitude below `1e-10`) -
not "is the zero vector" - or the computed angle `angle_with` is exactly
`0` or exactly `pi`. -/
theorem C3_parallel_amended (a b : Vector) :
    (∃ r, is_parallel_to a b = Except.ok r) ∧
    (is_parallel_to a b = Except.ok true ↔
      (is_zero a = true ∨ is_zero b = true ∨
       angle_with a b = Except.ok AngleCls.zero ∨
       angle_with a b = Except.ok AngleCls.pi)) := by
  cases hza : is_zero a with
  | true => simp [is_parallel_to, hza]
  | false =>
    cases hzb : is_zero b with
    | true => simp [is_parallel_to, hza, hzb]
    | false =>
      have hA := is_zero_false_magSq a hza
      have hB := is_zero_false_magSq b hzb
      constructor
      · rcases hres : is_parallel_to a b with e | r
        · exfalso
          simp only [is_parallel_to, hza, hzb, Bool.false_eq_true, if_false,
            angle_with, normalizeCheck, if_neg hA, if_neg hB, Except.map] at hres
          exact Except.noConfusion hres
        · exact ⟨r, rfl⟩
      · simp only [is_parallel_to, hza, hzb, Bool.false_eq_true, if_false,
          angle_with, normalizeCheck, if_neg hA, if_neg hB, Except.map,
          Except.ok.injEq, Bool.or_eq_true, decide_eq_true_eq, false_or]

/-- C8: on operands of differing dimensions, `plus` and `minus` return a
vector of the shorter operand's length (the `zip` truncates; no error is
raised), and `dot` sums products only over the shorter length. -/
theorem C8_truncation (a b : Vector) (ha : WF a) (hb : WF b)
    (hd : a.dimension ≠ b.dimension) :
    (∃ r, plus a b = Except.ok r ∧ r.dimension = min a.dimension b.dimension) ∧
    (∃ r, minus a b = Except.ok r ∧ r.dimension = min a.dimension b.dimension) ∧
    dot a b = (List.zipWith (fun x y => x * y)
        (a.coordinates.take (min a.dimension b.dimension))
        (b.coordinates.take (min a.dimension b.dimension))).sum := by
  have hna : a.coordinates ≠ [] := List.length_pos.mp (ha.1 ▸ ha.2)
  have hnb : b.coordinates ≠ [] := List.length_pos.mp (hb.1 ▸ hb.2)
  refine ⟨?_, ?_, ?_⟩
  · refine ⟨⟨List.zipWith (fun x y => x + y) a.coordinates b.coordinates,
      (List.zipWith (fun x y => x + y) a.coordinates b.coordinates).length⟩,
      mkVector_ok _ (zipWith_ne_nil _ _ _ hna hnb), ?_⟩
    show (List.zipWith (fun x y => x + y) a.coordinates b.coordinates).length = _
    rw [List.length_zipWith, ha.1, hb.1]
  · refine ⟨⟨List.zipWith (fun x y => x - y) a.coordinates b.coordinates,
      (List.zipWith (fun x y => x - y) a.coordinates b.coordinates).length⟩,
      mkVector_ok _ (zipWith_ne_nil _ _ _ hna hnb), ?_⟩
    show (List.zipWith (fun x y => x - y) a.coordinates b.coordinates).length = _
    rw [List.length_zipWith, ha.1, hb.1]
  · have hm : min a.dimension b.dimension =
        min a.coordinates.length b.coordinates.length := by
      rw [ha.1, hb.1]
    rw [dot, hm, ← zipWith_take_min]

/-- Witness for C8 at `Vector([1, 2])` and `Vector([3])`. -/
theorem C8_witness :
    (∃ r, plus v12 vSingle3 = Except.ok r ∧
      r.dimension = min v12.dimension vSingle3.dimension) ∧
    (∃ r, minus v12 vSingle3 = Except.ok r ∧
      r.dimension = min v12.dimension vSingle3.dimension) ∧
    dot v12 vSingle3 = (List.zipWith (fun x y => x * y)
        (v12.coordinates.take (min v12.dimension vSingle3.dimension))
        (vSingle3.coordinates.take (min v12.dimension vSingle3.dimension))).sum :=
  C8_truncation v12 vSingle3 (by constructor <;> simp [v12])
    (by constructor <;> simp [vSingle3]) (by simp [v12, vSingle3])

/-- C10: every operation that returns a `Vector` returns one satisfying
the data-model invariant `dimension = length(coordinates) ∧ dimension ≥ 1`
given well-formed operands and the operation's preconditions.
`normalize` (line 50) returns `times_scalar (1 / magnitude)`, so it is
covered by the `times_scalar` clause, which holds for *every* scalar;
`cross` returns a vector only for 3-dimensional operands (see C1), hence
its precondition here.  The operands are manifestly not mutated: every
operation is a pure function building a fresh `Vector` through the
constructor. -/
theorem C10_invariants (a b : Vector) (c : ℚ) (ha : WF a) (hb : WF b) :
    (∃ r, plus a b = Except.ok r ∧ WF r) ∧
    (∃ r, minus a b = Except.ok r ∧ WF r) ∧
    (∃ r, times_scalar c a = Except.ok r ∧ WF r) ∧
    (magnitudeSq b ≠ 0 → ∃ r, component_parallel_to a b = Except.ok r ∧ WF r) ∧
    (magnitudeSq b ≠ 0 → ∃ r, component_orthogonal_to a b = Except.ok r ∧ WF r) ∧
    (a.dimension = 3 → b.dimension = 3 → ∃ r, cross a b = Except.ok r ∧ WF r) := by
  have h1a : 1 ≤ a.coordinates.length := ha.1 ▸ ha.2
  have h1b : 1 ≤ b.coordinates.length := hb.1 ▸ hb.2
  have hna : a.coordinates ≠ [] := List.length_pos.mp h1a
  have hnb : b.coordinates ≠ [] := List.length_pos.mp h1b
  refine ⟨?_, ?_, ?_, ?_, ?_, ?_⟩
  · refine ⟨⟨List.zipWith (fun x y => x + y) a.coordinates b.coordinates,
      (List.zipWith (fun x y => x + y) a.coordinates b.coordinates).length⟩,
      mkVector_ok _ (zipWith_ne_nil _ _ _ hna hnb), rfl, ?_⟩
    show 1 ≤ (List.zipWith (fun x y => x + y) a.coordinates b.coordinates).length
    rw [List.length_zipWith]
    exact le_min h1a h1b
  · refine ⟨⟨List.zipWith (fun x y => x - y) a.coordinates b.coordinates,
      (List.zipWith (fun x y => x - y) a.coordinates b.coordinates).length⟩,
      mkVector_ok _ (zipWith_ne_nil _ _ _ hna hnb), rfl, ?_⟩
    show 1 ≤ (List.zipWith (fun x y => x - y) a.coordinates b.coordinates).length
    rw [List.length_zipWith]
    exact le_min h1a h1b
  · refine ⟨⟨a.coordinates.map (fun x => c * x),
      (a.coordinates.map (fun x => c * x)).length⟩,
      mkVector_ok _ (by simpa using hna), rfl, ?_⟩
    show 1 ≤ (a.coordinates.map (fun x => c * x)).length
    simpa using h1a
  · intro hz
    refine ⟨⟨b.coordinates.map (fun x => (dot a b / magnitudeSq b) * x),
      (b.coordinates.map (fun x => (dot a b / magnitudeSq b) * x)).length⟩,
      ?_, rfl, ?_⟩
    · rw [component_parallel_to, if_neg hz]
      exact mkVector_ok _ (by simpa using hnb)
    · show 1 ≤ (b.coordinates.map (fun x => (dot a b / magnitudeSq b) * x)).length
      simpa using h1b
  · intro hz
    have hcpt : component_parallel_to a b =
        Except.ok ⟨b.coordinates.map (fun x => (dot a b / magnitudeSq b) * x),
          (b.coordinates.map (fun x => (dot a b / magnitudeSq b) * x)).length⟩ := by
      rw [component_parallel_to, if_neg hz]
      exact mkVector_ok _ (by simpa using hnb)
    refine ⟨⟨List.zipWith (fun x y => x - y) a.coordinates
        (b.coordinates.map (fun x => (dot a b / magnitudeSq b) * x)),
      (List.zipWith (fun x y => x - y) a.coordinates
        (b.coordinates.map (fun x => (dot a b / magnitudeSq b) * x))).length⟩,
      ?_, rfl, ?_⟩
    · simp only [component_orthogonal_to, hcpt, bind, Except.bind, minus]
      exact mkVector_ok _
        (zipWith_ne_nil _ _ _ hna (by simpa using hnb))
    · show 1 ≤ (List.zipWith (fun x y => x - y) a.coordinates
        (b.coordinates.map (fun x => (dot a b / magnitudeSq b) * x))).length
      rw [List.length_zipWith]
      exact le_min h1a (by simpa using h1b)
  · intro h3a h3b
    have hl1 : a.coordinates.length = 3 := by rw [← ha.1, h3a]
    have hl2 : b.coordinates.length = 3 := by rw [← hb.1, h3b]
    obtain ⟨x1, y1, z1, hx⟩ := List.length_eq_three.mp hl1
    obtain ⟨x2, y2, z2, hy⟩ := List.length_eq_three.mp hl2
    refine ⟨⟨[x1 * y2 - y1 * x2, y1 * z2 - z1 * y2, -(x1 * z2) - (z1 * x2)], 3⟩,
      ?_, by simp, by norm_num⟩
    unfold cross
    rw [if_neg (by omega), hx, hy]
    exact mkVector_ok _ (by simp)

/-- Witness for C10 at `Vector([1,2,3])`, `Vector([4,5,6])`, scalar 2. -/
theorem C10_witness :
    (∃ r, plus v123 v456 = Except.ok r ∧ WF r) ∧
    (∃ r, times_scalar 2 v123 = Except.ok r ∧ WF r) ∧
    (∃ r, component_orthogonal_to v123 v456 = Except.ok r ∧ WF r) ∧
    (∃ r, cross v123 v456 = Except.ok r ∧ WF r) :=
  ⟨(C10_invariants v123 v456 2 (by constructor <;> simp [v123])
      (by constructor <;> simp [v456])).1,
   (C10_invariants v123 v456 2 (by constructor <;> simp [v123])
      (by constructor <;> simp [v456])).2.2.1,
   (C10_invariants v123 v456 2 (by constructor <;> simp [v123])
      (by constructor <;> simp [v456])).2.2.2.2.1
      (by norm_num [magnitudeSq, v456]),
   (C10_invariants v123 v456 2 (by constructor <;> simp [v123])
      (by constructor <;> simp [v456])).2.2.2.2.2 rfl rfl⟩

/-- C4 as stated is false: the constructor stores a coordinate exactly
(the `Decimal` constructor ignores the context precision), but
`times_scalar` multiplies under the 30-significant-digit context, so
`ScaleBy(1)` rounds.  At `Vector(['1.000000000000000000000000000001'])`
(31 significant digits) the product `Decimal(1) * x` rounds to `1`, and
the result does not equal the original vector. -/
theorem C4_counterexample :
    decCoordsEq (times_scalar_dec oneDec vThirtyOne) vThirtyOne = false := by
  decide

/-- C4 amended: `v.ScaleBy(1)` equals `v` exactly for every vector whose
stored coordinates each carry at most 30 significant digits (significand
below `10 ^ 30`), i.e. whenever the context rounding of the
multiplication is the identity; a coordinate carrying more digits (such
as `'1.000000000000000000000000000001'`, or the exact binary expansion
of most floats) is rounded and need not be preserved. -/
theorem C4_scale_one_amended :
    ∀ coords : List Dec, (∀ d ∈ coords, d.m.natAbs < 10 ^ decPrec) →
      decCoordsEq (times_scalar_dec oneDec coords) coords = true
  | [], _ => rfl
  | d :: rest, h => by
    have hd : d.m.natAbs < 10 ^ decPrec := h d (List.mem_cons_self d rest)
    have hmul : mulDec oneDec d = d := by
      show ctxRound ⟨1 * d.m, 0 + d.e⟩ = d
      rw [one_mul, zero_add]
      unfold ctxRound excessDigits
      simp [Nat.div_eq_of_lt hd, digitsFuel]
    simp only [times_scalar_dec, List.map_cons, decCoordsEq, hmul]
    rw [Bool.and_eq_true]
    refine ⟨by simp [decimalEq], ?_⟩
    have := C4_scale_one_amended rest (fun x hx => h x (List.mem_cons_of_mem d hx))
    simpa [times_scalar_dec] using this

/-- Witness for C4 at `Vector(['1.5'])`, whose single coordinate has two
significant digits. -/
theorem C4_witness :
    (∀ d ∈ vFifteenTenths, d.m.natAbs < 10 ^ decPrec) ∧
    decCoordsEq (times_scalar_dec oneDec vFifteenTenths) vFifteenTenths = true :=
  ⟨by decide, C4_scale_one_amended vFifteenTenths (by decide)⟩

end VecLib
